import Mathlib

/-
Verification of the typed result/response model and error-translation layer
of a cache-service client SDK (Python), via a shallow embedding in Lean 4.

Embedding conventions:
* Python str values are modelled by Lean String (well-formed Unicode text;
  Lean Char is exactly a Unicode scalar value, as Python text is).
* Python bytes values are modelled by List Nat, each entry a byte value below 256.
* str.encode("utf-8") and bytes.decode("utf-8") are modelled by an executable
  UTF-8 encoder and decoder over List Nat, written with the arithmetic
  (div/mod) formulation of RFC 3629; the decoder rejects exactly what a strict
  UTF-8 decoder (such as the Python codec) rejects: truncated sequences,
  bad continuation bytes, overlong forms, surrogates and out-of-range values.
* Python timedelta values are modelled by Int, counted in milliseconds.
* The gRPC transport is an external collaborator: each operation embedding is
  parameterized by a transport function from the wire request to either a wire
  response or a raised failure, and returns the list of stub calls it made
  (request plus the timeout argument), so that dispatch behaviour is provable.
-/

namespace Momento

/-! ## UTF-8 encoding and decoding over byte lists -/

/-- UTF-8 encoding of one Unicode scalar value, as a list of byte values.
Arithmetic formulation of RFC 3629: for a scalar v, the lead byte carries
the high bits (v divided by a power of 64) and each continuation byte is
0x80 plus a base-64 digit of v. -/
def utf8EncodeChar (c : Char) : List Nat :=
  let v := c.toNat
  if v ≤ 0x7f then
    [v]
  else if v ≤ 0x7ff then
    [0xc0 + v / 64, 0x80 + v % 64]
  else if v ≤ 0xffff then
    [0xe0 + v / 4096, 0x80 + v / 64 % 64, 0x80 + v % 64]
  else
    [0xf0 + v / 262144, 0x80 + v / 4096 % 64, 0x80 + v / 64 % 64, 0x80 + v % 64]

/-- Python str.encode("utf-8"), modelled over the characters of the string. -/
def utf8Encode (s : String) : List Nat :=
  s.data.flatMap utf8EncodeChar

/-- A UTF-8 continuation byte: high bits 10. -/
def contByte (b : Nat) : Prop := 0x80 ≤ b ∧ b ≤ 0xbf

instance (b : Nat) : Decidable (contByte b) :=
  inferInstanceAs (Decidable (And _ _))

/-- Final step of decoding one scalar: reject overlong forms (value below the
minimum for the sequence length) and values that are not Unicode scalar
values (surrogates, values at or above 0x110000). -/
def mkDecodedChar (lo n : Nat) (rest : List Nat) : Option (Char × List Nat) :=
  if lo ≤ n ∧ n.isValidChar then some (Char.ofNat n, rest) else none

/-- Strict UTF-8 decoding of one scalar from the front of a byte list,
returning the decoded character and the remaining bytes. -/
def utf8DecodeChar : List Nat → Option (Char × List Nat)
  | [] => none
  | b0 :: bs =>
    if b0 ≤ 0x7f then
      mkDecodedChar 0 b0 bs
    else if 0xc0 ≤ b0 ∧ b0 ≤ 0xdf then
      match bs with
      | b1 :: bs1 =>
        if contByte b1 then
          mkDecodedChar 0x80 ((b0 - 0xc0) * 64 + (b1 - 0x80)) bs1
        else none
      | [] => none
    else if 0xe0 ≤ b0 ∧ b0 ≤ 0xef then
      match bs with
      | b1 :: b2 :: bs2 =>
        if contByte b1 ∧ contByte b2 then
          mkDecodedChar 0x800 ((b0 - 0xe0) * 4096 + (b1 - 0x80) * 64 + (b2 - 0x80)) bs2
        else none
      | _ => none
    else if 0xf0 ≤ b0 ∧ b0 ≤ 0xf7 then
      match bs with
      | b1 :: b2 :: b3 :: bs3 =>
        if contByte b1 ∧ contByte b2 ∧ contByte b3 then
          mkDecodedChar 0x10000
            ((b0 - 0xf0) * 262144 + (b1 - 0x80) * 4096 + (b2 - 0x80) * 64 + (b3 - 0x80)) bs3
        else none
      | _ => none
    else none

/-- Fuel-indexed decoding loop; fuel bounds the number of characters, and the
length of the byte list is always enough fuel. -/
def utf8DecodeList : Nat → List Nat → Option (List Char)
  | _, [] => some []
  | 0, _ => none
  | fuel + 1, bs =>
    match utf8DecodeChar bs with
    | some (c, rest) => (utf8DecodeList fuel rest).map (c :: ·)
    | none => none

/-- Python bytes.decode("utf-8"), returning none where the Python codec raises. -/
def utf8Decode (bs : List Nat) : Option String :=
  (utf8DecodeList bs.length bs).map fun cs => ⟨cs⟩

/-! ## Error taxonomy (momento.errors)

The module momento/errors is not among the sources; only its callers
(cache.py, the data client) and the tests are. The taxonomy, the exception
shapes and the converter below are therefore modelled from the spec. -/

/-- Modelled from the spec: the closed enumeration of error kinds of the SDK
taxonomy (spec section 7); momento/errors is missing from the sources. The
constructor names follow the MomentoErrorCode values the tests compare
against. -/
inductive MomentoErrorCode where
  | INVALID_ARGUMENT_ERROR
  | NOT_FOUND_ERROR
  | ALREADY_EXISTS_ERROR
  | AUTHENTICATION_ERROR
  | PERMISSION_ERROR
  | LIMIT_EXCEEDED_ERROR
  | FAILED_PRECONDITION_ERROR
  | SERVER_UNAVAILABLE
  | TIMEOUT_ERROR
  | CANCELLED_ERROR
  | INTERNAL_SERVER_ERROR
  | UNKNOWN_ERROR
deriving DecidableEq, Repr

/-- Modelled from the spec: a classified SDK error (spec section 3,
ClassifiedError): a taxonomy code plus a human-readable message;
momento/errors is missing from the sources. The original low-level cause is
carried by the wrapping PyException value where one exists. -/
structure SdkException where
  error_code : MomentoErrorCode
  message : String
deriving DecidableEq, Repr

/-- Transport status codes of the RPC layer (the gRPC StatusCode values the
converter distinguishes). The transport is an external collaborator. -/
inductive GrpcStatusCode where
  | INVALID_ARGUMENT
  | NOT_FOUND
  | ALREADY_EXISTS
  | UNAUTHENTICATED
  | PERMISSION_DENIED
  | RESOURCE_EXHAUSTED
  | FAILED_PRECONDITION
  | UNAVAILABLE
  | DEADLINE_EXCEEDED
  | CANCELLED
  | INTERNAL
  | UNKNOWN
deriving DecidableEq, Repr

/-- A failure value as raised inside a facade method: either an
already-classified SDK error (validation failures and UnknownException are
SdkException subclasses in the source), a transport failure carrying a status
code, or any other exception. -/
inductive PyException where
  | sdk (e : SdkException)
  | rpc (status : GrpcStatusCode) (details : String)
  | other (details : String)
deriving DecidableEq, Repr

/-- Constructor of the InvalidArgumentException of momento.errors, an
SdkException with the invalid-argument code. -/
def InvalidArgumentException (msg : String) : SdkException :=
  { error_code := .INVALID_ARGUMENT_ERROR, message := msg }

/-- Constructor of the UnknownException of momento.errors, an SdkException
with the unknown code, raised by the facades on unrecognized response shapes. -/
def UnknownException (msg : String) : SdkException :=
  { error_code := .UNKNOWN_ERROR, message := msg }

/-- Modelled from the spec: the fixed table mapping a transport status code to
a taxonomy member (spec section 4.2, step 2); momento/errors is missing from
the sources. -/
def grpcStatusToErrorCode : GrpcStatusCode → MomentoErrorCode
  | .INVALID_ARGUMENT => .INVALID_ARGUMENT_ERROR
  | .NOT_FOUND => .NOT_FOUND_ERROR
  | .ALREADY_EXISTS => .ALREADY_EXISTS_ERROR
  | .UNAUTHENTICATED => .AUTHENTICATION_ERROR
  | .PERMISSION_DENIED => .PERMISSION_ERROR
  | .RESOURCE_EXHAUSTED => .LIMIT_EXCEEDED_ERROR
  | .FAILED_PRECONDITION => .FAILED_PRECONDITION_ERROR
  | .UNAVAILABLE => .SERVER_UNAVAILABLE
  | .DEADLINE_EXCEEDED => .TIMEOUT_ERROR
  | .CANCELLED => .CANCELLED_ERROR
  | .INTERNAL => .INTERNAL_SERVER_ERROR
  | .UNKNOWN => .UNKNOWN_ERROR

/-- Modelled from the spec: the fixed, reusable explanatory template each
error kind carries (spec section 4.1); momento/errors is missing from the
sources. -/
def errorCodeTemplate : MomentoErrorCode → String
  | .INVALID_ARGUMENT_ERROR => "Invalid argument passed to Momento client"
  | .NOT_FOUND_ERROR =>
      "A cache with the specified name does not exist. To resolve this error, make sure you have created the cache before attempting to use it"
  | .ALREADY_EXISTS_ERROR =>
      "A cache with the specified name already exists. To resolve this error, either delete the existing cache and make a new one, or use a different name"
  | .AUTHENTICATION_ERROR => "Invalid authentication credentials to connect to cache service"
  | .PERMISSION_ERROR => "Insufficient permissions to perform an operation on a cache"
  | .LIMIT_EXCEEDED_ERROR => "Request rate, bandwidth, or object size exceeded the limits for this account"
  | .FAILED_PRECONDITION_ERROR =>
      "System is not in a state required for the operation execution"
  | .SERVER_UNAVAILABLE =>
      "The server was unable to handle the request; consider retrying"
  | .TIMEOUT_ERROR => "The client request timed out"
  | .CANCELLED_ERROR => "The request was cancelled by the server"
  | .INTERNAL_SERVER_ERROR =>
      "An unexpected error occurred while trying to fulfill the request"
  | .UNKNOWN_ERROR => "Unknown error has occurred"

/-- Modelled from the spec: convert_error of momento.errors (spec section
4.2), missing from the sources. An already-classified SDK error passes
through unchanged; a transport failure with a status code is classified
through the fixed table; anything else is classified as unknown, the
original failure retained as cause. -/
def convert_error : PyException → SdkException
  | .sdk e => e
  | .rpc status details =>
      { error_code := grpcStatusToErrorCode status
        message := errorCodeTemplate (grpcStatusToErrorCode status) ++ ": " ++ details }
  | .other details =>
      { error_code := .UNKNOWN_ERROR
        message := errorCodeTemplate .UNKNOWN_ERROR ++ ": " ++ details }

/-! ## Python argument values and the shared input utilities -/

/-- A Python value as passed for a cache name, key, value, field or TTL
argument: the SDK typing admits str and bytes payloads, but the tests also
pass None and int to exercise the validators. -/
inductive PyVal where
  | str (s : String)
  | bytes (bs : List Nat)
  | int (n : Int)
  | pynone
deriving DecidableEq, Repr

/-- Name of the Python type of a value, used in validation error messages. -/
def pyTypeName : PyVal → String
  | .str _ => "str"
  | .bytes _ => "bytes"
  | .int _ => "int"
  | .pynone => "NoneType"

/-- Python timedelta values, modelled by their total length in milliseconds. -/
abbrev Timedelta := Int

/-- The _as_bytes conversion of momento.internal._utilities, as written in
the sources in cache.py as Cache._asBytes: a str is UTF-8 encoded, a bytes
value passes through, anything else raises an invalid-argument SDK error
built from the given message prefix and the type of the offending value. -/
def _as_bytes (data : PyVal) (errorMessage : String) : Except SdkException (List Nat) :=
  match data with
  | .str s => .ok (utf8Encode s)
  | .bytes bs => .ok bs
  | v => .error (InvalidArgumentException (errorMessage ++ pyTypeName v))

/-- Modelled from the spec: _validate_cache_name of
momento.internal._utilities, which is missing from the sources. The spec
says empty or non-string names are rejected before dispatch, but the
repository tests pin the narrower behaviour: a None, int or other non-string
name raises the invalid-argument message about a non-empty string
(test_momento_async.py, null and bad cache name tests), while an EMPTY
string name passes client-side validation and is rejected by the server
(test_momento_async.py expects the server-side message about an empty cache
header for the empty name). The model follows the tests: only non-strings
are rejected. -/
def _validate_cache_name (cache_name : PyVal) : Except SdkException Unit :=
  match cache_name with
  | .str _ => .ok ()
  | _ => .error (InvalidArgumentException "Cache name must be a non-empty string")

/-- Modelled from the spec: _validate_dictionary_name of
momento.internal._utilities, missing from the sources; per the spec
(section 4.3, non-empty names) an empty or non-string dictionary name is
rejected with an invalid-argument error. -/
def _validate_dictionary_name (dictionary_name : PyVal) : Except SdkException Unit :=
  match dictionary_name with
  | .str s => if s = "" then .error (InvalidArgumentException "Dictionary name must be a non-empty string") else .ok ()
  | _ => .error (InvalidArgumentException "Dictionary name must be a non-empty string")

/-- Modelled from the spec: _validate_ttl of momento.internal._utilities,
missing from the sources; per the spec (sections 4.3 and 4.4) a TTL must be
a positive duration, and the error message is the one the tests assert. -/
def _validate_ttl (ttl : Timedelta) : Except SdkException Unit :=
  if 0 < ttl then .ok ()
  else .error (InvalidArgumentException "TTL timedelta must be a non-negative integer")

/-! ## Wire requests and responses (momento_wire_types)

The generated protobuf classes are external collaborators; only the fields
the data client reads and writes are modelled. -/

/-- Wire request of the Set RPC. The source assigns
ttl_milliseconds = int(item_ttl.total_seconds() * 1000), which for a
timedelta modelled in milliseconds is the milliseconds value itself. -/
structure _SetRequest where
  cache_key : List Nat
  cache_body : List Nat
  ttl_milliseconds : Int
deriving DecidableEq, Repr

/-- Wire request of the Get RPC. -/
structure _GetRequest where
  cache_key : List Nat
deriving DecidableEq, Repr

/-- Wire request of the Delete RPC. -/
structure _DeleteRequest where
  cache_key : List Nat
deriving DecidableEq, Repr

/-- Wire request of the SetIfNotExists RPC. -/
structure _SetIfNotExistsRequest where
  cache_key : List Nat
  cache_body : List Nat
  ttl_milliseconds : Int
deriving DecidableEq, Repr

/-- Wire request of the DictionaryGet RPC. -/
structure _DictionaryGetRequest where
  dictionary_name : List Nat
  fields : List (List Nat)
deriving DecidableEq, Repr

/-- Wire request of the DictionaryIncrement RPC. -/
structure _DictionaryIncrementRequest where
  dictionary_name : List Nat
  field : List Nat
  amount : Int
  ttl_milliseconds : Int
  refresh_ttl : Bool
deriving DecidableEq, Repr

/-- The ECacheResult enumeration of the wire protocol, against whose Hit and
Miss members the Get handler compares response.result; Invalid and Ok are
the further declared members, giving the unrecognized shapes. -/
inductive ECacheResult where
  | Invalid
  | Ok
  | Hit
  | Miss
deriving DecidableEq, Repr

/-- Wire response of the Get RPC. -/
structure _GetResponse where
  result : ECacheResult
  cache_body : List Nat
deriving DecidableEq, Repr

/-- The result oneof of the SetIfNotExists wire response as observed through
WhichOneof: the stored or not_stored branch, or no branch set at all. -/
inductive SetIfNotExistsResult where
  | stored
  | not_stored
  | unset
deriving DecidableEq, Repr

/-- Wire response of the SetIfNotExists RPC. -/
structure _SetIfNotExistsResponse where
  result : SetIfNotExistsResult
deriving DecidableEq, Repr

/-- One per-field item of a found DictionaryGet wire response. -/
structure _DictionaryGetResponsePart where
  result : ECacheResult
  cache_body : List Nat
deriving DecidableEq, Repr

/-- The dictionary oneof of the DictionaryGet wire response as observed
through WhichOneof: found with its items, missing, or no branch set. -/
inductive DictionaryOneof where
  | found (items : List _DictionaryGetResponsePart)
  | missing
  | unset
deriving DecidableEq, Repr

/-- Wire response of the DictionaryGet RPC. -/
structure _DictionaryGetResponse where
  dictionary : DictionaryOneof
deriving DecidableEq, Repr

/-- Wire response of the DictionaryIncrement RPC. -/
structure _DictionaryIncrementResponse where
  value : Int
deriving DecidableEq, Repr

/-! ## Outcome model (momento.responses) -/

/-- Outcome family of the set operation (responses/scalar_data, CacheSet). -/
inductive CacheSet where
  | Success
  | Error (_error : SdkException)
deriving DecidableEq, Repr

/-- Outcome family of the get operation (responses/scalar_data, CacheGet). -/
inductive CacheGet where
  | Hit (value_bytes : List Nat)
  | Miss
  | Error (_error : SdkException)
deriving DecidableEq, Repr

/-- Outcome family of the delete operation (responses/scalar_data,
CacheDelete). -/
inductive CacheDelete where
  | Success
  | Error (_error : SdkException)
deriving DecidableEq, Repr

/-- Outcome family of the set_if_not_exists operation. -/
inductive CacheSetIfNotExists where
  | Stored
  | NotStored
  | Error (_error : SdkException)
deriving DecidableEq, Repr

/-- Per-field outcome inside a dictionary_get_fields Hit
(responses/dictionary_data, CacheDictionaryGetField). -/
inductive CacheDictionaryGetField where
  | Hit (value_bytes : List Nat) (field_bytes : List Nat)
  | Miss
  | Error (_error : SdkException)
deriving DecidableEq, Repr

/-- Outcome family of the dictionary_get_fields operation. -/
inductive CacheDictionaryGetFields where
  | Hit (responses : List CacheDictionaryGetField)
  | Miss
  | Error (_error : SdkException)
deriving DecidableEq, Repr

/-- Outcome family of the dictionary_increment operation. -/
inductive CacheDictionaryIncrement where
  | Success (value : Int)
  | Error (_error : SdkException)
deriving DecidableEq, Repr

/-- The value_string property of ValueStringMixin (responses/mixins.py):
the UTF-8 decoded view of value_bytes; the Python property raises where the
bytes are not valid UTF-8, modelled by none. -/
def value_string (value_bytes : List Nat) : Option String :=
  utf8Decode value_bytes

/-- Modelled from the spec: the CollectionTtl value object of
momento.requests (spec section 3), missing from the sources: either inherit
the default TTL (ttl none) or an explicit duration, plus the refresh flag. -/
structure CollectionTtl where
  ttl : Option Timedelta
  refresh_ttl : Bool
deriving DecidableEq, Repr

/-- Modelled from the spec: CollectionTtl.from_cache_ttl, the inherit-the-
default policy used as the default argument of every collection operation. -/
def CollectionTtl.from_cache_ttl : CollectionTtl :=
  { ttl := none, refresh_ttl := true }

/-! ## The data client facade (_scs_data_client.py)

Class _ScsDataClient. Each method embedding takes the transport stub method
as a function argument and returns, besides the outcome, the list of stub
calls it performed, each recorded as the wire request paired with the
timeout argument of the dispatch, so that short-circuiting and deadline
propagation are provable statements. -/

/-- Client state of _ScsDataClient: the default deadline in whole seconds as
computed in the constructor by int(default_deadline.total_seconds()), and
the validated default TTL. -/
structure ScsDataClient where
  _default_deadline_seconds : Int
  _default_ttl : Timedelta
deriving DecidableEq, Repr

/-- Constructor of _ScsDataClient: stores
int(default_deadline.total_seconds()) - integer truncation of the
configured deadline to whole seconds, Int.tdiv for a millisecond count -
and validates the default TTL, raising out of construction on failure. -/
def ScsDataClient.init (default_deadline : Timedelta) (default_ttl : Timedelta) :
    Except SdkException ScsDataClient :=
  match _validate_ttl default_ttl with
  | .error e => .error e
  | .ok _ =>
      .ok { _default_deadline_seconds := Int.tdiv default_deadline 1000
            _default_ttl := default_ttl }

/-- The _ttl_or_default_milliseconds helper: the explicit TTL when given,
else the client default, converted to milliseconds. -/
def ScsDataClient._ttl_or_default_milliseconds (c : ScsDataClient)
    (ttl : Option Timedelta) : Int :=
  match ttl with
  | none => c._default_ttl
  | some t => t

/-- The _collection_ttl_or_default_milliseconds helper: resolves the TTL
carried by a CollectionTtl; note that no validation is applied here. -/
def ScsDataClient._collection_ttl_or_default_milliseconds (c : ScsDataClient)
    (collection_ttl : CollectionTtl) : Int :=
  c._ttl_or_default_milliseconds collection_ttl.ttl

/-- The set method of _ScsDataClient: validate the cache name, resolve the
TTL (explicit if given, else the client default), validate the resolved TTL,
convert key and value to bytes, dispatch with the default deadline, and
return Success; any failure raised on the way is converted and wrapped into
the Error variant by the except clause. -/
def ScsDataClient.set (c : ScsDataClient)
    (transport : _SetRequest → Except PyException Unit)
    (cache_name key value : PyVal) (ttl : Option Timedelta) :
    CacheSet × List (_SetRequest × Int) :=
  let pre : Except SdkException _SetRequest := do
    _validate_cache_name cache_name
    let item_ttl := match ttl with
      | none => c._default_ttl
      | some t => t
    _validate_ttl item_ttl
    let cache_key ← _as_bytes key "Unsupported type for key: "
    let cache_body ← _as_bytes value "Unsupported type for value: "
    pure { cache_key := cache_key, cache_body := cache_body,
           ttl_milliseconds := item_ttl }
  match pre with
  | .error e => (.Error (convert_error (.sdk e)), [])
  | .ok request =>
    match transport request with
    | .ok _ => (.Success, [(request, c._default_deadline_seconds)])
    | .error e => (.Error (convert_error e), [(request, c._default_deadline_seconds)])

/-- The set_if_not_exists method of _ScsDataClient: like set, but the
response carries a result oneof; stored and not_stored map to the matching
variants and any other shape raises UnknownException, which the except
clause converts into the Error variant. -/
def ScsDataClient.set_if_not_exists (c : ScsDataClient)
    (transport : _SetIfNotExistsRequest → Except PyException _SetIfNotExistsResponse)
    (cache_name key value : PyVal) (ttl : Option Timedelta) :
    CacheSetIfNotExists × List (_SetIfNotExistsRequest × Int) :=
  let pre : Except SdkException _SetIfNotExistsRequest := do
    _validate_cache_name cache_name
    let item_ttl := match ttl with
      | none => c._default_ttl
      | some t => t
    _validate_ttl item_ttl
    let cache_key ← _as_bytes key "Unsupported type for key: "
    let cache_body ← _as_bytes value "Unsupported type for value: "
    pure { cache_key := cache_key, cache_body := cache_body,
           ttl_milliseconds := item_ttl }
  match pre with
  | .error e => (.Error (convert_error (.sdk e)), [])
  | .ok request =>
    match transport request with
    | .error e => (.Error (convert_error e), [(request, c._default_deadline_seconds)])
    | .ok response =>
      (match response.result with
       | .stored => .Stored
       | .not_stored => .NotStored
       | .unset =>
           .Error (convert_error
             (.sdk (UnknownException "SetIfNotExists responded with an unknown result"))),
       [(request, c._default_deadline_seconds)])

/-- The get method of _ScsDataClient: validate the cache name, convert the
key, dispatch with the default deadline; a Hit result yields the Hit variant
carrying cache_body, a Miss result the Miss variant, and any other result
raises UnknownException, which the except clause converts into the Error
variant. -/
def ScsDataClient.get (c : ScsDataClient)
    (transport : _GetRequest → Except PyException _GetResponse)
    (cache_name key : PyVal) :
    CacheGet × List (_GetRequest × Int) :=
  let pre : Except SdkException _GetRequest := do
    _validate_cache_name cache_name
    let cache_key ← _as_bytes key "Unsupported type for key: "
    pure { cache_key := cache_key }
  match pre with
  | .error e => (.Error (convert_error (.sdk e)), [])
  | .ok request =>
    match transport request with
    | .error e => (.Error (convert_error e), [(request, c._default_deadline_seconds)])
    | .ok response =>
      (match response.result with
       | .Hit => .Hit response.cache_body
       | .Miss => .Miss
       | _ =>
           .Error (convert_error
             (.sdk (UnknownException "Get responded with an unknown result"))),
       [(request, c._default_deadline_seconds)])

/-- The delete method of _ScsDataClient: validate the cache name, convert
the key, dispatch with the default deadline, and return Success
unconditionally on a completed call - the response carries no result
discriminator the handler inspects. -/
def ScsDataClient.delete (c : ScsDataClient)
    (transport : _DeleteRequest → Except PyException Unit)
    (cache_name key : PyVal) :
    CacheDelete × List (_DeleteRequest × Int) :=
  let pre : Except SdkException _DeleteRequest := do
    _validate_cache_name cache_name
    let cache_key ← _as_bytes key "Unsupported type for key: "
    pure { cache_key := cache_key }
  match pre with
  | .error e => (.Error (convert_error (.sdk e)), [])
  | .ok request =>
    match transport request with
    | .ok _ => (.Success, [(request, c._default_deadline_seconds)])
    | .error e => (.Error (convert_error e), [(request, c._default_deadline_seconds)])

/-- The _gen_dictionary_fields_as_bytes utility of
momento.internal._utilities as forced through list() in the source: each
requested field is converted through _as_bytes, the first failure raising
out of the enumeration. -/
def _gen_dictionary_fields_as_bytes (fields : List PyVal) (msg : String) :
    Except SdkException (List (List Nat)) :=
  match fields with
  | [] => .ok []
  | f :: rest => do
    let b ← _as_bytes f msg
    let bs ← _gen_dictionary_fields_as_bytes rest msg
    pure (b :: bs)

/-- The dictionary_get_fields method of _ScsDataClient: validate names,
convert the dictionary name and the requested fields to bytes, dispatch;
a found response is mapped by pairing the requested fields with the
response items positionally - zip in the source, which silently drops the
excess of either side - each pair giving Miss when the item result is Miss
and otherwise a Hit carrying the item body and the requested field. -/
def ScsDataClient.dictionary_get_fields (c : ScsDataClient)
    (transport : _DictionaryGetRequest → Except PyException _DictionaryGetResponse)
    (cache_name dictionary_name : PyVal) (fields : List PyVal) :
    CacheDictionaryGetFields × List (_DictionaryGetRequest × Int) :=
  let pre : Except SdkException _DictionaryGetRequest := do
    _validate_cache_name cache_name
    _validate_dictionary_name dictionary_name
    let dname ← _as_bytes dictionary_name "Unsupported type for dictionary_name: "
    let bytes_fields ← _gen_dictionary_fields_as_bytes fields "Unsupported type for fields: "
    pure { dictionary_name := dname, fields := bytes_fields }
  match pre with
  | .error e => (.Error (convert_error (.sdk e)), [])
  | .ok request =>
    match transport request with
    | .error e => (.Error (convert_error e), [(request, c._default_deadline_seconds)])
    | .ok response =>
      (match response.dictionary with
       | .found items =>
           .Hit (List.zipWith
             (fun field part =>
               if part.result = ECacheResult.Miss then CacheDictionaryGetField.Miss
               else CacheDictionaryGetField.Hit part.cache_body field)
             request.fields items)
       | .missing => .Miss
       | .unset =>
           .Error (convert_error (.sdk (UnknownException "Unknown dictionary field"))),
       [(request, c._default_deadline_seconds)])

/-- The dictionary_increment method of _ScsDataClient: validate names,
convert the dictionary name and field, resolve the CollectionTtl through
_collection_ttl_or_default_milliseconds - with no validation of the
resolved duration - dispatch, and wrap the response value in Success. -/
def ScsDataClient.dictionary_increment (c : ScsDataClient)
    (transport : _DictionaryIncrementRequest → Except PyException _DictionaryIncrementResponse)
    (cache_name dictionary_name field : PyVal) (amount : Int)
    (ttl : CollectionTtl) :
    CacheDictionaryIncrement × List (_DictionaryIncrementRequest × Int) :=
  let pre : Except SdkException _DictionaryIncrementRequest := do
    _validate_cache_name cache_name
    _validate_dictionary_name dictionary_name
    let dname ← _as_bytes dictionary_name "Unsupported type for dictionary_name: "
    let fieldBytes ← _as_bytes field "Unsupported type for field: "
    pure { dictionary_name := dname, field := fieldBytes, amount := amount,
           ttl_milliseconds := c._collection_ttl_or_default_milliseconds ttl,
           refresh_ttl := ttl.refresh_ttl }
  match pre with
  | .error e => (.Error (convert_error (.sdk e)), [])
  | .ok request =>
    match transport request with
    | .ok response =>
        (.Success response.value, [(request, c._default_deadline_seconds)])
    | .error e => (.Error (convert_error e), [(request, c._default_deadline_seconds)])

/-! ## The legacy synchronous facade (cache.py, class Cache)

cache.py predates the outcome model: its methods convert a failure and then
RAISE the converted error, modelled by an Except result whose error branch
is the escaping exception. -/

namespace Legacy

/-- Modelled from the spec: the convert function of
_cache_service_errors_converter, missing from the sources; like the error
converter of section 4.2 it maps an arbitrary failure to exactly one
classified error, which cache.py then raises. -/
def convert (e : PyException) : SdkException :=
  convert_error e

/-- Modelled from the spec: the legacy InvalidInputError of the errors
module, missing from the sources: a classified invalid-argument error
raised by the validators in cache.py. -/
def InvalidInputError (msg : String) : SdkException :=
  { error_code := .INVALID_ARGUMENT_ERROR, message := msg }

/-- Modelled from the spec: the legacy CacheSetResponse of
cache_operation_responses, missing from the sources; cache.py constructs it
from the wire response and the value bytes that were set. -/
structure CacheSetResponse where
  value_bytes : List Nat
deriving DecidableEq, Repr

/-- Client state of the legacy Cache class: the validated default TTL in
seconds. -/
structure Cache where
  _default_ttlSeconds : Int
deriving DecidableEq, Repr

/-- The _validate_ttl method of cache.py: anything that is not a positive
int raises InvalidInputError. -/
def Cache._validate_ttl (ttl_seconds : PyVal) : Except SdkException Unit :=
  match ttl_seconds with
  | .int n =>
      if 0 < n then .ok ()
      else .error (InvalidInputError "TTL Seconds must be a non-zero positive integer.")
  | _ => .error (InvalidInputError "TTL Seconds must be a non-zero positive integer.")

/-- The _asBytes method of cache.py: str is UTF-8 encoded, bytes passes
through, anything else raises InvalidInputError. -/
def Cache._asBytes (data : PyVal) (errorMessage : String) : Except SdkException (List Nat) :=
  match data with
  | .str s => .ok (utf8Encode s)
  | .bytes bs => .ok bs
  | v => .error (InvalidInputError (errorMessage ++ pyTypeName v))

/-- Value of a Python int, defined on the int constructor; used for the
millisecond conversion after _validate_ttl has established intness. -/
def pyIntValue : PyVal → Int
  | .int n => n
  | _ => 0

/-- The set method of cache.py (class Cache): resolve the TTL, validate it,
convert key and value, dispatch - and on ANY failure raise the converted
classified error: the error branch of the result is an exception escaping
the facade method, not an Error-variant outcome value. -/
def Cache.set (cl : Cache) (transport : _SetRequest → Except PyException Unit)
    (key value : PyVal) (ttl_seconds : Option PyVal) :
    Except SdkException CacheSetResponse :=
  let body : Except PyException CacheSetResponse := do
    let item_ttl_seconds := ttl_seconds.getD (.int cl._default_ttlSeconds)
    (Cache._validate_ttl item_ttl_seconds).mapError PyException.sdk
    let cache_key ← (Cache._asBytes key "Unsupported type for key: ").mapError PyException.sdk
    let cache_body ← (Cache._asBytes value "Unsupported type for value: ").mapError PyException.sdk
    let request : _SetRequest :=
      { cache_key := cache_key, cache_body := cache_body,
        ttl_milliseconds := pyIntValue item_ttl_seconds * 1000 }
    match transport request with
    | .ok _ => pure { value_bytes := cache_body }
    | .error e => .error e
  match body with
  | .ok resp => .ok resp
  | .error e => .error (convert e)

end Legacy

/-! ## A store model of the remote cache service

The service is an external collaborator; for the claims about hit, miss,
round-trip and delete semantics the transport is instantiated with an
association list from key bytes to value bytes, newest binding first. -/

/-- The remote key-value store: an association list from key bytes to value
bytes. -/
abbrev Store := List (List Nat × List Nat)

/-- Store lookup, newest binding first. -/
def storeGet (st : Store) (k : List Nat) : Option (List Nat) :=
  match st with
  | [] => none
  | (k0, v0) :: rest => if k0 = k then some v0 else storeGet rest k

/-- The store after a Set request is applied by the service. -/
def applySet (st : Store) (r : _SetRequest) : Store :=
  (r.cache_key, r.cache_body) :: st

/-- A transport for the Get RPC backed by a store: a present key answers a
Hit result carrying the stored bytes, an absent key a Miss result; no
failure is raised. -/
def storeGetTransport (st : Store) : _GetRequest → Except PyException _GetResponse :=
  fun r =>
    match storeGet st r.cache_key with
    | some v => .ok { result := .Hit, cache_body := v }
    | none => .ok { result := .Miss, cache_body := [] }

/-- A transport for the Set RPC backed by a store: the call always
succeeds; the updated store is applySet of the dispatched request. -/
def storeSetTransport : _SetRequest → Except PyException Unit :=
  fun _ => .ok ()

/-! ## Proofs: UTF-8 round trip -/

theorem utf8EncodeChar_ne_nil (c : Char) : utf8EncodeChar c ≠ [] := by
  unfold utf8EncodeChar
  dsimp only
  split <;> try simp
  split <;> try simp
  split <;> simp

/-- Decoding inverts encoding for one character, leaving trailing bytes intact. -/
theorem utf8DecodeChar_encode (c : Char) (rest : List Nat) :
    utf8DecodeChar (utf8EncodeChar c ++ rest) = some (c, rest) := by
  have hvalid : c.toNat.isValidChar := c.valid
  have hlt : c.toNat < 0x110000 := by
    rcases hvalid with h | ⟨_, h⟩
    · omega
    · exact h
  by_cases h1 : c.toNat ≤ 0x7f
  · have henc : utf8EncodeChar c = [c.toNat] := by
      unfold utf8EncodeChar; simp [h1]
    rw [henc]
    show utf8DecodeChar (c.toNat :: rest) = some (c, rest)
    simp only [utf8DecodeChar]
    rw [if_pos h1]
    unfold mkDecodedChar
    rw [if_pos ⟨Nat.zero_le _, hvalid⟩, Char.ofNat_toNat]
  · by_cases h2 : c.toNat ≤ 0x7ff
    · have henc : utf8EncodeChar c = [0xc0 + c.toNat / 64, 0x80 + c.toNat % 64] := by
        unfold utf8EncodeChar; simp [h1, h2]
      rw [henc]
      show utf8DecodeChar ((0xc0 + c.toNat / 64) :: (0x80 + c.toNat % 64) :: rest)
          = some (c, rest)
      simp only [utf8DecodeChar]
      rw [if_neg (by omega), if_pos (by constructor <;> omega)]
      rw [if_pos (by unfold contByte; constructor <;> omega)]
      unfold mkDecodedChar
      have hv : (0xc0 + c.toNat / 64 - 0xc0) * 64 + (0x80 + c.toNat % 64 - 0x80)
          = c.toNat := by omega
      rw [hv, if_pos ⟨by omega, hvalid⟩, Char.ofNat_toNat]
    · by_cases h3 : c.toNat ≤ 0xffff
      · have henc : utf8EncodeChar c
            = [0xe0 + c.toNat / 4096, 0x80 + c.toNat / 64 % 64, 0x80 + c.toNat % 64] := by
          unfold utf8EncodeChar; simp [h1, h2, h3]
        rw [henc]
        show utf8DecodeChar ((0xe0 + c.toNat / 4096) :: (0x80 + c.toNat / 64 % 64)
            :: (0x80 + c.toNat % 64) :: rest) = some (c, rest)
        simp only [utf8DecodeChar]
        rw [if_neg (by omega), if_neg (by rintro ⟨ha, hb⟩; omega),
          if_pos (by constructor <;> omega)]
        rw [if_pos (by constructor <;> (unfold contByte; constructor <;> omega))]
        unfold mkDecodedChar
        have hv : (0xe0 + c.toNat / 4096 - 0xe0) * 4096
            + (0x80 + c.toNat / 64 % 64 - 0x80) * 64 + (0x80 + c.toNat % 64 - 0x80)
            = c.toNat := by omega
        rw [hv, if_pos ⟨by omega, hvalid⟩, Char.ofNat_toNat]
      · have henc : utf8EncodeChar c
            = [0xf0 + c.toNat / 262144, 0x80 + c.toNat / 4096 % 64,
               0x80 + c.toNat / 64 % 64, 0x80 + c.toNat % 64] := by
          unfold utf8EncodeChar; simp [h1, h2, h3]
        rw [henc]
        show utf8DecodeChar ((0xf0 + c.toNat / 262144) :: (0x80 + c.toNat / 4096 % 64)
            :: (0x80 + c.toNat / 64 % 64) :: (0x80 + c.toNat % 64) :: rest) = some (c, rest)
        simp only [utf8DecodeChar]
        rw [if_neg (by omega), if_neg (by rintro ⟨ha, hb⟩; omega),
          if_neg (by rintro ⟨ha, hb⟩; omega), if_pos (by constructor <;> omega)]
        rw [if_pos (by
          refine ⟨?_, ?_, ?_⟩ <;> (unfold contByte; constructor <;> omega))]
        unfold mkDecodedChar
        have hv : (0xf0 + c.toNat / 262144 - 0xf0) * 262144
            + (0x80 + c.toNat / 4096 % 64 - 0x80) * 4096
            + (0x80 + c.toNat / 64 % 64 - 0x80) * 64 + (0x80 + c.toNat % 64 - 0x80)
            = c.toNat := by omega
        rw [hv, if_pos ⟨by omega, hvalid⟩, Char.ofNat_toNat]

theorem utf8DecodeList_encode (l : List Char) :
    ∀ fuel : Nat, (l.flatMap utf8EncodeChar).length ≤ fuel →
      utf8DecodeList fuel (l.flatMap utf8EncodeChar) = some l := by
  induction l with
  | nil => intro fuel _; cases fuel <;> rfl
  | cons c l ih =>
    intro fuel hfuel
    have hne : utf8EncodeChar c ≠ [] := utf8EncodeChar_ne_nil c
    have hlen : 1 ≤ (utf8EncodeChar c).length := by
      cases hc : utf8EncodeChar c with
      | nil => exact absurd hc hne
      | cons _ _ => simp
    rw [List.flatMap_cons] at hfuel ⊢
    rw [List.length_append] at hfuel
    cases fuel with
    | zero => omega
    | succ fuel =>
      have hbs : utf8EncodeChar c ++ l.flatMap utf8EncodeChar ≠ [] := by
        intro h
        exact hne (List.append_eq_nil.mp h).1
      rw [show utf8DecodeList (fuel + 1) (utf8EncodeChar c ++ l.flatMap utf8EncodeChar)
            = match utf8DecodeChar (utf8EncodeChar c ++ l.flatMap utf8EncodeChar) with
              | some (c, rest) => (utf8DecodeList fuel rest).map (c :: ·)
              | none => none from by
        cases hb : utf8EncodeChar c ++ l.flatMap utf8EncodeChar with
        | nil => exact absurd hb hbs
        | cons x xs => rfl]
      rw [utf8DecodeChar_encode]
      dsimp only
      rw [ih fuel (by omega)]
      rfl

/-- Decoding inverts encoding: the UTF-8 round trip on whole strings. -/
theorem utf8Decode_utf8Encode (s : String) : utf8Decode (utf8Encode s) = some s := by
  unfold utf8Decode utf8Encode
  rw [utf8DecodeList_encode s.data _ (Nat.le_refl _)]
  rfl

/-! ## Shared helper lemmas -/

/-- Converting a list of Python strings through the fields enumeration
succeeds and UTF-8 encodes each entry. -/
theorem gen_fields_as_bytes_str (msg : String) (l : List String) :
    _gen_dictionary_fields_as_bytes (l.map PyVal.str) msg = .ok (l.map utf8Encode) := by
  induction l with
  | nil => rfl
  | cons s l ih =>
    rw [List.map_cons, _gen_dictionary_fields_as_bytes]
    rw [show _as_bytes (.str s) msg = .ok (utf8Encode s) from rfl]
    rw [ih]
    rfl

/-! ## Claims -/

/-- C3: the error converter is idempotent. Converting the classified result
of a conversion (presented again as a raised SDK error) yields the same
classified error, and in particular any already-classified SDK error passes
through conversion unchanged. -/
theorem convert_error_idempotent (e : PyException) :
    convert_error (.sdk (convert_error e)) = convert_error e
    ∧ ∀ s : SdkException, convert_error (.sdk s) = s := by
  exact ⟨rfl, fun _ => rfl⟩

/-- C1 (counterexample): the claim quantifies over every facade method and
cites Cache.set of cache.py, but that method converts a transport failure
and then re-raises it: at this concrete input the call raises the converted
classified error (the error branch of the embedding) instead of returning
an Error-variant outcome value. -/
theorem legacy_cache_set_raises_on_transport_failure :
    Legacy.Cache.set { _default_ttlSeconds := 60 }
        (fun _ => .error (.rpc .UNAVAILABLE "connection refused"))
        (.str "k") (.str "v") none
      = .error (convert_error (.rpc .UNAVAILABLE "connection refused")) := by
  rfl

/-- C1 (amended): for every _ScsDataClient facade operation, a transport
failure raised during the operation is converted and wrapped into that
operation family Error variant, and a validation failure likewise - no
exception escapes the data client facade methods. (The legacy Cache facade
of cache.py instead re-raises the converted failure; see the
counterexample.) -/
theorem data_client_failures_become_error_outcomes
    (c : ScsDataClient) (pe : PyException) (name key value dname fname : String)
    (amount : Int) (cttl : CollectionTtl) (fields : List String) (nskey : PyVal)
    (httl : 0 < c._default_ttl) (hdname : dname ≠ "")
    (hns : ∀ s, nskey ≠ .str s) (hnb : ∀ b, nskey ≠ .bytes b) :
    (ScsDataClient.set c (fun _ => .error pe) (.str name) (.str key) (.str value) none).1
        = .Error (convert_error pe)
    ∧ (ScsDataClient.get c (fun _ => .error pe) (.str name) (.str key)).1
        = .Error (convert_error pe)
    ∧ (ScsDataClient.delete c (fun _ => .error pe) (.str name) (.str key)).1
        = .Error (convert_error pe)
    ∧ (ScsDataClient.set_if_not_exists c (fun _ => .error pe) (.str name) (.str key)
        (.str value) none).1 = .Error (convert_error pe)
    ∧ (ScsDataClient.dictionary_get_fields c (fun _ => .error pe) (.str name)
        (.str dname) (fields.map PyVal.str)).1 = .Error (convert_error pe)
    ∧ (ScsDataClient.dictionary_increment c (fun _ => .error pe) (.str name)
        (.str dname) (.str fname) amount cttl).1 = .Error (convert_error pe)
    ∧ (ScsDataClient.get c (fun _ => .error pe) (.str name) nskey).1
        = .Error (convert_error (.sdk (InvalidArgumentException
            ("Unsupported type for key: " ++ pyTypeName nskey)))) := by
  refine ⟨?_, ?_, ?_, ?_, ?_, ?_, ?_⟩
  · unfold ScsDataClient.set
    simp [_validate_cache_name, _validate_ttl, _as_bytes, httl,
      Bind.bind, Except.bind, pure, Except.pure]
  · unfold ScsDataClient.get
    simp [_validate_cache_name, _as_bytes, Bind.bind, Except.bind, pure, Except.pure]
  · unfold ScsDataClient.delete
    simp [_validate_cache_name, _as_bytes, Bind.bind, Except.bind, pure, Except.pure]
  · unfold ScsDataClient.set_if_not_exists
    simp [_validate_cache_name, _validate_ttl, _as_bytes, httl,
      Bind.bind, Except.bind, pure, Except.pure]
  · unfold ScsDataClient.dictionary_get_fields
    rw [gen_fields_as_bytes_str]
    simp [_validate_cache_name, _validate_dictionary_name, _as_bytes, hdname,
      Bind.bind, Except.bind, pure, Except.pure]
  · unfold ScsDataClient.dictionary_increment
    simp [_validate_cache_name, _validate_dictionary_name, _as_bytes, hdname,
      Bind.bind, Except.bind, pure, Except.pure]
  · cases nskey with
    | str s => exact absurd rfl (hns s)
    | bytes b => exact absurd rfl (hnb b)
    | int n =>
      unfold ScsDataClient.get
      simp [_validate_cache_name, _as_bytes, pyTypeName,
        Bind.bind, Except.bind, pure, Except.pure]
    | pynone =>
      unfold ScsDataClient.get
      simp [_validate_cache_name, _as_bytes, pyTypeName,
        Bind.bind, Except.bind, pure, Except.pure]

/-- C1 (witness): the amended theorem applied at concrete inputs. -/
theorem data_client_failures_become_error_outcomes_witness :
    (ScsDataClient.set { _default_deadline_seconds := 15, _default_ttl := 60000 }
        (fun _ => .error (.rpc .UNAVAILABLE "down")) (.str "c") (.str "k") (.str "v") none).1
      = .Error (convert_error (.rpc .UNAVAILABLE "down")) :=
  (data_client_failures_become_error_outcomes
    { _default_deadline_seconds := 15, _default_ttl := 60000 }
    (.rpc .UNAVAILABLE "down") "c" "k" "v" "d" "f" 1 CollectionTtl.from_cache_ttl
    [] (.int 3) (by decide) (by decide)
    (fun s h => PyVal.noConfusion h) (fun b h => PyVal.noConfusion h)).1

/-- C2 (counterexample): an empty string cache name does not short-circuit:
at this concrete input the set facade performs one transport call (the
recorded call list is nonempty), whose server-side invalid-argument status
is then converted - refuting the claim that every invalid input, empty
names included, never invokes the transport stub. -/
theorem empty_cache_name_reaches_transport :
    (ScsDataClient.set { _default_deadline_seconds := 15, _default_ttl := 60000 }
        (fun _ => .error (.rpc .INVALID_ARGUMENT "Cache header is empty"))
        (.str "") (.str "foo") (.str "bar") none).2.length = 1
    ∧ (ScsDataClient.set { _default_deadline_seconds := 15, _default_ttl := 60000 }
        (fun _ => .error (.rpc .INVALID_ARGUMENT "Cache header is empty"))
        (.str "") (.str "foo") (.str "bar") none).1
      = .Error (convert_error (.rpc .INVALID_ARGUMENT "Cache header is empty")) := by
  exact ⟨rfl, rfl⟩

/-- C2 (amended): for the embedded operations, a non-string cache name, a
non-positive resolved TTL, an unsupported key or value payload type, or an
empty collection name yields that operation family Error variant carrying an
invalid-argument classified error, and the transport stub is never invoked
(the recorded call list is empty). An empty string cache name, by contrast,
is dispatched to the server - see the counterexample. -/
theorem invalid_input_short_circuits
    (c : ScsDataClient) (name key value : String) (n t : Int)
    (anyKey anyValue : PyVal) (anyTtl : Option Timedelta) (cname : PyVal)
    (hname : ∀ s, cname ≠ .str s) (ht : t ≤ 0) (httl : 0 < c._default_ttl) :
    (∀ tr, ScsDataClient.set c tr cname anyKey anyValue anyTtl
      = (.Error (InvalidArgumentException "Cache name must be a non-empty string"), []))
    ∧ (∀ tr, ScsDataClient.set c tr (.str name) (.str key) (.str value) (some t)
      = (.Error (InvalidArgumentException "TTL timedelta must be a non-negative integer"), []))
    ∧ (∀ tr, ScsDataClient.set c tr (.str name) (.int n) (.str value) none
      = (.Error (InvalidArgumentException ("Unsupported type for key: " ++ pyTypeName (.int n))), []))
    ∧ (∀ tr, ScsDataClient.set c tr (.str name) (.str key) (.int n) none
      = (.Error (InvalidArgumentException ("Unsupported type for value: " ++ pyTypeName (.int n))), []))
    ∧ (∀ tr, ScsDataClient.dictionary_get_fields c tr (.str name) (.str "") [.str key]
      = (.Error (InvalidArgumentException "Dictionary name must be a non-empty string"), []))
    ∧ (InvalidArgumentException "Cache name must be a non-empty string").error_code
        = .INVALID_ARGUMENT_ERROR := by
  refine ⟨?_, ?_, ?_, ?_, ?_, rfl⟩
  · intro tr
    cases cname with
    | str s => exact absurd rfl (hname s)
    | bytes b =>
      unfold ScsDataClient.set
      simp [_validate_cache_name, convert_error,
        Bind.bind, Except.bind, pure, Except.pure]
    | int m =>
      unfold ScsDataClient.set
      simp [_validate_cache_name, convert_error,
        Bind.bind, Except.bind, pure, Except.pure]
    | pynone =>
      unfold ScsDataClient.set
      simp [_validate_cache_name, convert_error,
        Bind.bind, Except.bind, pure, Except.pure]
  · intro tr
    have hnt : ¬ (0 < t) := by omega
    unfold ScsDataClient.set
    simp [_validate_cache_name, _validate_ttl, _as_bytes, convert_error, hnt,
      Bind.bind, Except.bind, pure, Except.pure]
  · intro tr
    unfold ScsDataClient.set
    simp [_validate_cache_name, _validate_ttl, _as_bytes, httl, pyTypeName, convert_error,
      Bind.bind, Except.bind, pure, Except.pure]
  · intro tr
    unfold ScsDataClient.set
    simp [_validate_cache_name, _validate_ttl, _as_bytes, httl, pyTypeName, convert_error,
      Bind.bind, Except.bind, pure, Except.pure]
  · intro tr
    unfold ScsDataClient.dictionary_get_fields
    simp [_validate_cache_name, _validate_dictionary_name, convert_error,
      Bind.bind, Except.bind, pure, Except.pure]

/-- C2 (witness): the amended theorem applied at concrete inputs, with an
always-completing transport. -/
theorem invalid_input_short_circuits_witness :
    ScsDataClient.set { _default_deadline_seconds := 15, _default_ttl := 60000 }
        (fun _ => .ok ()) (.int 1) (.str "foo") (.str "bar") none
      = (.Error (InvalidArgumentException "Cache name must be a non-empty string"), []) := by
  have h := invalid_input_short_circuits
    { _default_deadline_seconds := 15, _default_ttl := 60000 } "c" "k" "v" 7 (-1)
    (.str "foo") (.str "bar") none (.int 1)
    (fun s hh => PyVal.noConfusion hh) (by decide) (by decide)
  exact h.1 (fun _ => .ok ())

/-- C4: a successful transport response whose result discriminator is
neither a recognized positive shape nor a recognized failure shape yields
the Error variant carrying an unknown-kind classified error - never a
silent positive default and never a raw exception. -/
theorem unknown_discriminator_yields_unknown_kind
    (c : ScsDataClient) (name key value dname : String) (body : List Nat)
    (r : ECacheResult) (hr1 : r ≠ .Hit) (hr2 : r ≠ .Miss)
    (httl : 0 < c._default_ttl) (hdname : dname ≠ "") :
    (ScsDataClient.get c (fun _ => .ok { result := r, cache_body := body })
        (.str name) (.str key)).1
      = .Error (UnknownException "Get responded with an unknown result")
    ∧ (ScsDataClient.set_if_not_exists c (fun _ => .ok { result := .unset })
        (.str name) (.str key) (.str value) none).1
      = .Error (UnknownException "SetIfNotExists responded with an unknown result")
    ∧ (ScsDataClient.dictionary_get_fields c (fun _ => .ok { dictionary := .unset })
        (.str name) (.str dname) []).1
      = .Error (UnknownException "Unknown dictionary field")
    ∧ (UnknownException "Get responded with an unknown result").error_code
      = .UNKNOWN_ERROR := by
  refine ⟨?_, ?_, ?_, rfl⟩
  · unfold ScsDataClient.get
    cases r with
    | Hit => exact absurd rfl hr1
    | Miss => exact absurd rfl hr2
    | Invalid =>
      simp [_validate_cache_name, _as_bytes, convert_error,
        Bind.bind, Except.bind, pure, Except.pure]
    | Ok =>
      simp [_validate_cache_name, _as_bytes, convert_error,
        Bind.bind, Except.bind, pure, Except.pure]
  · unfold ScsDataClient.set_if_not_exists
    simp [_validate_cache_name, _validate_ttl, _as_bytes, httl, convert_error,
      Bind.bind, Except.bind, pure, Except.pure]
  · unfold ScsDataClient.dictionary_get_fields
    simp [_validate_cache_name, _validate_dictionary_name, _as_bytes, hdname,
      convert_error, _gen_dictionary_fields_as_bytes,
      Bind.bind, Except.bind, pure, Except.pure]

/-- C4 (witness): the theorem applied at concrete inputs, with the Invalid
member of the wire enumeration as the unrecognized discriminator. -/
theorem unknown_discriminator_yields_unknown_kind_witness :
    (ScsDataClient.get { _default_deadline_seconds := 15, _default_ttl := 60000 }
        (fun _ => .ok { result := .Invalid, cache_body := [] })
        (.str "c") (.str "k")).1
      = .Error (UnknownException "Get responded with an unknown result") :=
  (unknown_discriminator_yields_unknown_kind
    { _default_deadline_seconds := 15, _default_ttl := 60000 } "c" "k" "v" "d" []
    .Invalid (by decide) (by decide) (by decide) (by decide)).1

/-- C5: against the store-backed transport, get on a present key yields the
Hit variant carrying the stored payload bytes, and get on an absent key
yields the Miss variant - never an Error variant. -/
theorem get_hit_on_present_miss_on_absent
    (c : ScsDataClient) (st : Store) (name key : String) :
    (∀ v, storeGet st (utf8Encode key) = some v →
      (ScsDataClient.get c (storeGetTransport st) (.str name) (.str key)).1 = .Hit v)
    ∧ (storeGet st (utf8Encode key) = none →
      (ScsDataClient.get c (storeGetTransport st) (.str name) (.str key)).1 = .Miss) := by
  constructor
  · intro v hv
    unfold ScsDataClient.get storeGetTransport
    simp [_validate_cache_name, _as_bytes, hv, Bind.bind, Except.bind, pure, Except.pure]
  · intro hv
    unfold ScsDataClient.get storeGetTransport
    simp [_validate_cache_name, _as_bytes, hv, Bind.bind, Except.bind, pure, Except.pure]

/-- C5 (witness): the theorem applied to a concrete one-entry store and to
the empty store. -/
theorem get_hit_on_present_miss_on_absent_witness :
    (ScsDataClient.get { _default_deadline_seconds := 15, _default_ttl := 60000 }
        (storeGetTransport [(utf8Encode "k", [1, 2])]) (.str "c") (.str "k")).1
      = .Hit [1, 2]
    ∧ (ScsDataClient.get { _default_deadline_seconds := 15, _default_ttl := 60000 }
        (storeGetTransport []) (.str "c") (.str "k")).1 = .Miss := by
  constructor
  · exact (get_hit_on_present_miss_on_absent
      { _default_deadline_seconds := 15, _default_ttl := 60000 }
      [(utf8Encode "k", [1, 2])] "c" "k").1 [1, 2] (by decide)
  · exact (get_hit_on_present_miss_on_absent
      { _default_deadline_seconds := 15, _default_ttl := 60000 } [] "c" "k").2 rfl

/-- C6 (counterexample): the collection operations do not validate the
resolved TTL: at this concrete input, dictionary_increment resolves an
explicit non-positive CollectionTtl duration and dispatches it to the
transport unchanged, returning Success - refuting the claim that every
TTL-accepting operation validates the resolved value is a positive duration
before dispatching. -/
theorem collection_ttl_dispatched_unvalidated :
    ScsDataClient.dictionary_increment
        { _default_deadline_seconds := 15, _default_ttl := 60000 }
        (fun _ => .ok { value := 1 })
        (.str "cache") (.str "dict") (.str "field") 1
        { ttl := some (-5000), refresh_ttl := true }
      = (.Success 1,
         [({ dictionary_name := utf8Encode "dict", field := utf8Encode "field",
             amount := 1, ttl_milliseconds := -5000, refresh_ttl := true }, 15)])
    ∧ ((-5000 : Int) ≤ 0) := by
  exact ⟨rfl, by decide⟩

/-- C6 (amended): operations taking a TTL resolve it as the explicit value
when one is given and the client configured default otherwise; the scalar
set operation validates the resolved value is positive before dispatching,
while the collection operations dispatch the resolved CollectionTtl
duration without validating it (see the counterexample). -/
theorem ttl_resolution_and_validation
    (c : ScsDataClient) (name key value dname fname : String) (t : Int)
    (refresh : Bool) (httl : 0 < c._default_ttl) (hdname : dname ≠ "")
    (ht : 0 < t) :
    (ScsDataClient.set c storeSetTransport (.str name) (.str key) (.str value) none).2
      = [({ cache_key := utf8Encode key, cache_body := utf8Encode value,
            ttl_milliseconds := c._default_ttl }, c._default_deadline_seconds)]
    ∧ (ScsDataClient.set c storeSetTransport (.str name) (.str key) (.str value) (some t)).2
      = [({ cache_key := utf8Encode key, cache_body := utf8Encode value,
            ttl_milliseconds := t }, c._default_deadline_seconds)]
    ∧ (∀ t2 : Int, t2 ≤ 0 → ∀ tr,
        ScsDataClient.set c tr (.str name) (.str key) (.str value) (some t2)
        = (.Error (InvalidArgumentException "TTL timedelta must be a non-negative integer"), []))
    ∧ (∀ t2 : Int,
        ∀ tr : _DictionaryIncrementRequest → Except PyException _DictionaryIncrementResponse,
        (ScsDataClient.dictionary_increment c tr (.str name) (.str dname) (.str fname) 1
          { ttl := some t2, refresh_ttl := refresh }).2
        = [({ dictionary_name := utf8Encode dname, field := utf8Encode fname,
              amount := 1, ttl_milliseconds := t2, refresh_ttl := refresh },
            c._default_deadline_seconds)])
    ∧ ((ScsDataClient.dictionary_increment c (fun _ => .ok { value := 0 })
          (.str name) (.str dname) (.str fname) 1
          { ttl := none, refresh_ttl := refresh }).2
        = [({ dictionary_name := utf8Encode dname, field := utf8Encode fname,
              amount := 1, ttl_milliseconds := c._default_ttl, refresh_ttl := refresh },
            c._default_deadline_seconds)]) := by
  refine ⟨?_, ?_, ?_, ?_, ?_⟩
  · unfold ScsDataClient.set storeSetTransport
    simp [_validate_cache_name, _validate_ttl, _as_bytes, httl,
      Bind.bind, Except.bind, pure, Except.pure]
  · unfold ScsDataClient.set storeSetTransport
    simp [_validate_cache_name, _validate_ttl, _as_bytes, ht,
      Bind.bind, Except.bind, pure, Except.pure]
  · intro t2 ht2 tr
    have hnt : ¬ (0 < t2) := by omega
    unfold ScsDataClient.set
    simp [_validate_cache_name, _validate_ttl, _as_bytes, hnt, convert_error,
      Bind.bind, Except.bind, pure, Except.pure]
  · intro t2 tr
    unfold ScsDataClient.dictionary_increment
    simp only [_validate_cache_name, _validate_dictionary_name, _as_bytes,
      ScsDataClient._collection_ttl_or_default_milliseconds,
      ScsDataClient._ttl_or_default_milliseconds,
      Bind.bind, Except.bind, pure, Except.pure, if_neg hdname]
    cases tr { dictionary_name := utf8Encode dname, field := utf8Encode fname,
               amount := 1, ttl_milliseconds := t2, refresh_ttl := refresh } <;> rfl
  · unfold ScsDataClient.dictionary_increment
    simp only [_validate_cache_name, _validate_dictionary_name, _as_bytes,
      ScsDataClient._collection_ttl_or_default_milliseconds,
      ScsDataClient._ttl_or_default_milliseconds,
      Bind.bind, Except.bind, pure, Except.pure, if_neg hdname]

/-- C6 (witness): the amended theorem applied at concrete inputs. -/
theorem ttl_resolution_and_validation_witness :
    (ScsDataClient.set { _default_deadline_seconds := 15, _default_ttl := 60000 }
        storeSetTransport (.str "c") (.str "k") (.str "v") none).2
      = [({ cache_key := utf8Encode "k", cache_body := utf8Encode "v",
            ttl_milliseconds := 60000 }, 15)] :=
  (ttl_resolution_and_validation
    { _default_deadline_seconds := 15, _default_ttl := 60000 }
    "c" "k" "v" "d" "f" 5 true (by decide) (by decide) (by decide)).1

/-- C7: round trip - a successful set of a string key and value, followed
by a get of the same key against the store updated with the dispatched
request, yields a Hit carrying the stored opaque bytes, whose UTF-8 decoded
string view (value_string) equals the value that was set. -/
theorem set_get_round_trip (c : ScsDataClient) (st : Store) (cache k v : String)
    (httl : 0 < c._default_ttl) :
    ScsDataClient.set c storeSetTransport (.str cache) (.str k) (.str v) none
      = (.Success,
         [({ cache_key := utf8Encode k, cache_body := utf8Encode v,
             ttl_milliseconds := c._default_ttl }, c._default_deadline_seconds)])
    ∧ (ScsDataClient.get c
        (storeGetTransport (applySet st
          { cache_key := utf8Encode k, cache_body := utf8Encode v,
            ttl_milliseconds := c._default_ttl }))
        (.str cache) (.str k)).1 = .Hit (utf8Encode v)
    ∧ value_string (utf8Encode v) = some v := by
  refine ⟨?_, ?_, ?_⟩
  · unfold ScsDataClient.set storeSetTransport
    simp [_validate_cache_name, _validate_ttl, _as_bytes, httl,
      Bind.bind, Except.bind, pure, Except.pure]
  · have hget : storeGet (applySet st
        { cache_key := utf8Encode k, cache_body := utf8Encode v,
          ttl_milliseconds := c._default_ttl }) (utf8Encode k) = some (utf8Encode v) := by
      unfold applySet storeGet
      simp
    unfold ScsDataClient.get storeGetTransport
    simp [_validate_cache_name, _as_bytes, hget, Bind.bind, Except.bind, pure, Except.pure]
  · unfold value_string
    exact utf8Decode_utf8Encode v

/-- C7 (witness): the round trip applied at concrete inputs. -/
theorem set_get_round_trip_witness :
    (ScsDataClient.get { _default_deadline_seconds := 15, _default_ttl := 60000 }
        (storeGetTransport (applySet []
          { cache_key := utf8Encode "k", cache_body := utf8Encode "v",
            ttl_milliseconds := 60000 }))
        (.str "c") (.str "k")).1 = .Hit (utf8Encode "v")
    ∧ value_string (utf8Encode "v") = some "v" := by
  have h := set_get_round_trip { _default_deadline_seconds := 15, _default_ttl := 60000 }
    [] "c" "k" "v" (by decide)
  exact ⟨h.2.1, h.2.2⟩

/-- C8 (counterexample): the dispatched deadline is the configured default
deadline truncated to whole seconds, so for a configured deadline of 1500
milliseconds every dispatch carries 1 second - not a deadline equal to the
configured default, refuting the equality in the claim. -/
theorem deadline_truncated_counterexample :
    ScsDataClient.init 1500 60000
      = .ok { _default_deadline_seconds := 1, _default_ttl := 60000 }
    ∧ (ScsDataClient.set { _default_deadline_seconds := 1, _default_ttl := 60000 }
        storeSetTransport (.str "c") (.str "k") (.str "v") none).2
      = [({ cache_key := utf8Encode "k", cache_body := utf8Encode "v",
            ttl_milliseconds := 60000 }, 1)]
    ∧ ((1 : Int) * 1000 ≠ 1500) := by
  refine ⟨rfl, rfl, by decide⟩

/-- C8 (amended): every dispatch of the embedded operations carries an
explicit deadline, namely the configured default deadline truncated to
whole seconds by the constructor, and a deadline-exceeded transport failure
is converted into the Error variant whose classified error has the timeout
kind; the carried deadline differs from the configured one when the latter
is not a whole number of seconds (see the counterexample). -/
theorem dispatch_deadline_and_timeout_conversion
    (dl ttl : Int) (c : ScsDataClient) (hinit : ScsDataClient.init dl ttl = .ok c)
    (name key value : String) (details : String) :
    c._default_deadline_seconds = Int.tdiv dl 1000
    ∧ (∀ tr : _SetRequest → Except PyException Unit, ∀ call ∈
        (ScsDataClient.set c tr (.str name) (.str key) (.str value) none).2,
        call.2 = c._default_deadline_seconds)
    ∧ (∀ tr : _GetRequest → Except PyException _GetResponse, ∀ call ∈
        (ScsDataClient.get c tr (.str name) (.str key)).2,
        call.2 = c._default_deadline_seconds)
    ∧ (∀ tr : _DeleteRequest → Except PyException Unit, ∀ call ∈
        (ScsDataClient.delete c tr (.str name) (.str key)).2,
        call.2 = c._default_deadline_seconds)
    ∧ (ScsDataClient.set c (fun _ => .error (.rpc .DEADLINE_EXCEEDED details))
        (.str name) (.str key) (.str value) none).1
      = .Error (convert_error (.rpc .DEADLINE_EXCEEDED details))
    ∧ (convert_error (.rpc .DEADLINE_EXCEEDED details)).error_code = .TIMEOUT_ERROR := by
  unfold ScsDataClient.init _validate_ttl at hinit
  by_cases hp : 0 < ttl
  case neg => rw [if_neg hp] at hinit; exact absurd hinit (by simp)
  rw [if_pos hp] at hinit
  simp only [Except.ok.injEq] at hinit
  subst hinit
  have httl : (0 : Int) < ttl := hp
  refine ⟨rfl, ?_, ?_, ?_, ?_, rfl⟩
  · intro tr call hcall
    unfold ScsDataClient.set at hcall
    simp only [_validate_cache_name, _validate_ttl, _as_bytes, if_pos httl,
      Bind.bind, Except.bind, pure, Except.pure] at hcall
    cases htr : tr { cache_key := utf8Encode key, cache_body := utf8Encode value,
                     ttl_milliseconds := ttl } <;>
      rw [htr] at hcall <;> simp at hcall <;> rw [hcall]
  · intro tr call hcall
    unfold ScsDataClient.get at hcall
    simp only [_validate_cache_name, _as_bytes,
      Bind.bind, Except.bind, pure, Except.pure] at hcall
    cases htr : tr { cache_key := utf8Encode key } <;>
      rw [htr] at hcall <;> simp at hcall <;> rw [hcall]
  · intro tr call hcall
    unfold ScsDataClient.delete at hcall
    simp only [_validate_cache_name, _as_bytes,
      Bind.bind, Except.bind, pure, Except.pure] at hcall
    cases htr : tr { cache_key := utf8Encode key } <;>
      rw [htr] at hcall <;> simp at hcall <;> rw [hcall]
  · unfold ScsDataClient.set
    simp [_validate_cache_name, _validate_ttl, _as_bytes, httl,
      Bind.bind, Except.bind, pure, Except.pure]

/-- C8 (witness): the amended theorem applied at concrete inputs. -/
theorem dispatch_deadline_and_timeout_conversion_witness :
    (ScsDataClient.set { _default_deadline_seconds := 15, _default_ttl := 60000 }
        (fun _ => .error (.rpc .DEADLINE_EXCEEDED "Deadline Exceeded"))
        (.str "c") (.str "k") (.str "v") none).1
      = .Error (convert_error (.rpc .DEADLINE_EXCEEDED "Deadline Exceeded"))
    ∧ (convert_error (.rpc .DEADLINE_EXCEEDED "Deadline Exceeded")).error_code
      = .TIMEOUT_ERROR := by
  have h := dispatch_deadline_and_timeout_conversion 15000 60000
    { _default_deadline_seconds := 15, _default_ttl := 60000 }
    rfl "c" "k" "v" "Deadline Exceeded"
  exact ⟨h.2.2.2.2.1, h.2.2.2.2.2⟩

/-- C9: a delete call that completes without a transport failure returns
the Success variant unconditionally, irrespective of the store contents and
hence of whether the key was present - the wire response carries nothing
the handler inspects - while a not-found transport status (as raised for an
absent cache) is converted to a not-found Error. -/
theorem delete_unconditional_success (c : ScsDataClient) (name key : String)
    (tr : _DeleteRequest → Except PyException Unit) (h : ∀ r, tr r = .ok ()) :
    (ScsDataClient.delete c tr (.str name) (.str key)).1 = .Success
    ∧ ∀ details, ((ScsDataClient.delete c (fun _ => .error (.rpc .NOT_FOUND details))
        (.str name) (.str key)).1
      = .Error (convert_error (.rpc .NOT_FOUND details))
      ∧ (convert_error (.rpc .NOT_FOUND details)).error_code = .NOT_FOUND_ERROR) := by
  constructor
  · unfold ScsDataClient.delete
    simp [_validate_cache_name, _as_bytes, h, Bind.bind, Except.bind, pure, Except.pure]
  · intro details
    constructor
    · unfold ScsDataClient.delete
      simp [_validate_cache_name, _as_bytes, Bind.bind, Except.bind, pure, Except.pure]
    · rfl

/-- C9 (witness): the theorem applied at concrete inputs with an
always-completing transport. -/
theorem delete_unconditional_success_witness :
    (ScsDataClient.delete { _default_deadline_seconds := 15, _default_ttl := 60000 }
        (fun _ => .ok ()) (.str "c") (.str "k")).1 = .Success :=
  (delete_unconditional_success { _default_deadline_seconds := 15, _default_ttl := 60000 }
    "c" "k" (fun _ => .ok ()) (fun _ => rfl)).1

/-- C10: a found dictionary_get_fields response is mapped by pairing the
requested fields with the response items positionally in request order -
the item at each index paired with the requested field at the same index, a
Miss item result giving the Miss variant and any other result a Hit
carrying the item body and the requested field name - and the returned list
has the length of the shorter side, so excess requested fields are silently
omitted when the response carries fewer items than fields were requested. -/
theorem dictionary_get_fields_positional_pairing
    (c : ScsDataClient) (name dname : String) (fields : List String)
    (items : List _DictionaryGetResponsePart) (hdname : dname ≠ "") :
    ∃ rs, (ScsDataClient.dictionary_get_fields c
        (fun _ => .ok { dictionary := .found items })
        (.str name) (.str dname) (fields.map PyVal.str)).1
      = .Hit rs
    ∧ rs.length = min fields.length items.length
    ∧ ∀ (i : Nat) (part : _DictionaryGetResponsePart) (fb : List Nat),
        items[i]? = some part → (fields.map utf8Encode)[i]? = some fb →
        rs[i]? = some (if part.result = .Miss then CacheDictionaryGetField.Miss
                       else .Hit part.cache_body fb) := by
  refine ⟨List.zipWith
      (fun field part =>
        if part.result = ECacheResult.Miss then CacheDictionaryGetField.Miss
        else CacheDictionaryGetField.Hit part.cache_body field)
      (fields.map utf8Encode) items, ?_, ?_, ?_⟩
  · unfold ScsDataClient.dictionary_get_fields
    rw [gen_fields_as_bytes_str]
    simp [_validate_cache_name, _validate_dictionary_name, _as_bytes, hdname,
      Bind.bind, Except.bind, pure, Except.pure]
  · rw [List.length_zipWith, List.length_map]
  · intro i part fb hpart hfb
    rw [List.getElem?_zipWith, hpart, hfb]

/-- C10 (witness): the theorem applied with two requested fields but a
single response item: the returned list has one entry, pairing the first
field with the item, and the second requested field is omitted. -/
theorem dictionary_get_fields_positional_pairing_witness :
    ∃ rs, (ScsDataClient.dictionary_get_fields
        { _default_deadline_seconds := 15, _default_ttl := 60000 }
        (fun _ => .ok { dictionary := .found [{ result := .Hit, cache_body := [9] }] })
        (.str "c") (.str "d") ([ "a", "b" ].map PyVal.str)).1
      = .Hit rs
    ∧ rs.length = min ([ "a", "b" ] : List String).length 1
    ∧ rs[0]? = some (.Hit [9] (utf8Encode "a")) := by
  obtain ⟨rs, h1, h2, h3⟩ := dictionary_get_fields_positional_pairing
    { _default_deadline_seconds := 15, _default_ttl := 60000 } "c" "d" ["a", "b"]
    [{ result := .Hit, cache_body := [9] }] (by decide)
  refine ⟨rs, h1, h2, ?_⟩
  have := h3 0 { result := .Hit, cache_body := [9] } (utf8Encode "a") rfl rfl
  simpa using this

end Momento
